import Mathlib

/-!
Verification of `veloce` thermal control (`src/veloce/thermal_control.py`).

Shallow embedding notes:
* Python floats are modelled as exact rationals (`ℚ`); the spec treats all
  control quantities as real-valued.
* The plant order is n = 3 (`x_est = [[0.],[0.],[0.]]` in `__init__`), with a
  scalar input `u` (1×1) and scalar measurement `y` (1×1), so state vectors are
  a fixed 3-tuple `Vec3` and the 1×1 arrays are plain rationals.
* The voltage-to-temperature transfer `gettemp` uses `np.log` (transcendental,
  floating point); every claim is invariant in it, so it is abstracted as a
  parameter `tempOf : ℚ → ℚ` applied to the stored voltage of a channel.
* The module `lqg_math` (star-imported by the source) is not under `src/`; it
  supplies `lqg_dt` and the matrices `A_mat, B_mat, C_mat, K_mat, L_mat`.
  These are bundled as the parameter structure `LqgParams` (see its doc
  comment) and quantified over.
* Hardware writes (`ljm.eWriteNames`, `set_heater`) are modelled as an emitted
  command list `List (ℕ × ℚ)` of (heater index, drive fraction); hardware reads
  are an input `Reads` describing, per analog channel, whether the first read,
  the immediate retry, or neither succeeded (the source catches both failures
  and keeps the previous voltage).
* `numpy` integer-array element assignment casts a float to the integer dtype
  by truncation toward zero; `self.pid_ints = np.array([0,0])` has integer
  dtype, so `self.pid_ints[i] += x` stores `truncQ (pid_ints[i] + x)`.
* `time.sleep`, printing and logging have no modelled effect.
-/

/-- `HEATER_MAX = 3.409` (module constant). -/
def HEATER_MAX : ℚ := 3409 / 1000

/-- `TEMP_DERIV = 0.00035` (module constant). -/
def TEMP_DERIV : ℚ := 35 / 100000

/-- `PID_GAIN_HZ = 0.002` (module constant). -/
def PID_GAIN_HZ : ℚ := 2 / 1000

/-- `self.pid_gain = PID_GAIN_HZ/TEMP_DERIV` (set in `__init__`, never changed). -/
def pid_gain : ℚ := PID_GAIN_HZ / TEMP_DERIV

/-- `self.pid_i = 0.5*PID_GAIN_HZ**2/TEMP_DERIV` (set in `__init__`, never changed). -/
def pid_i : ℚ := (1/2) * PID_GAIN_HZ ^ 2 / TEMP_DERIV

/-- A column (or row) vector of length 3, the plant order. -/
structure Vec3 where
  v0 : ℚ
  v1 : ℚ
  v2 : ℚ
deriving DecidableEq

/-- A 3×3 matrix as three rows. -/
structure Mat33 where
  r0 : Vec3
  r1 : Vec3
  r2 : Vec3
deriving DecidableEq

/-- Dot product of two length-3 vectors (`np.dot` of a row with a column). -/
def dot3 (a b : Vec3) : ℚ := a.v0 * b.v0 + a.v1 * b.v1 + a.v2 * b.v2

/-- `np.dot` of a 3×3 matrix with a 3×1 column. -/
def mat33vec (A : Mat33) (x : Vec3) : Vec3 :=
  ⟨dot3 A.r0 x, dot3 A.r1 x, dot3 A.r2 x⟩

/-- Componentwise sum of 3-vectors (`numpy +` / `+=` on 3×1 arrays). -/
def addV (a b : Vec3) : Vec3 := ⟨a.v0 + b.v0, a.v1 + b.v1, a.v2 + b.v2⟩

/-- A 3×1 column scaled by a scalar: `np.dot` of a 3×1 matrix with a 1×1 one. -/
def scaleV (c : ℚ) (a : Vec3) : Vec3 := ⟨c * a.v0, c * a.v1, c * a.v2⟩

/-- Modelled from the spec: the module `lqg_math`, star-imported by the source
but not present under `src/`, supplies the timestep `lqg_dt` and the plant and
gain matrices for the order-3 plant (spec §3: A is n×n, B is n×1, C is 1×n,
K the n×1 Kalman gain, L the 1×n regulator gain, with n = 3). They are bundled
here as an arbitrary parameter structure; a 3×1 or 1×3 matrix is a `Vec3`. -/
structure LqgParams where
  lqg_dt : ℚ
  A_mat : Mat33
  B_mat : Vec3
  C_mat : Vec3
  K_mat : Vec3
  L_mat : Vec3
deriving DecidableEq

/-- The mutable fields of `ThermalControl` that the servo loop and the mode
commands touch (hardware handles, wall-clock fields and log state omitted). -/
structure CState where
  voltages : Vec3
  nreads : ℕ
  lqg : Bool
  use_lqg : Bool
  storedata : Bool
  setpoint : ℚ
  ulqg : ℚ
  lqgverbose : Bool
  x_est : Vec3
  u : ℚ
  pid : Bool
  pid_ints : ℚ × ℚ
deriving DecidableEq

/-- The state `__init__` establishes after a successful labjack open:
`voltages = 99.9*ones(3)`, `lqg=False`, `use_lqg=True`, `storedata=False`,
`setpoint=25.0`, `nreads=0`, `ulqg=0`, `lqgverbose=False`, `x_est=[[0],[0],[0]]`,
`u=[[0]]`, `pid=False`, `pid_ints=np.array([0,0])`. -/
def initState : CState where
  voltages := ⟨999/10, 999/10, 999/10⟩
  nreads := 0
  lqg := false
  use_lqg := true
  storedata := false
  setpoint := 25
  ulqg := 0
  lqgverbose := false
  x_est := ⟨0, 0, 0⟩
  u := 0
  pid := false
  pid_ints := (0, 0)

/-- The mode commands of the command interface. -/
inductive Cmd where
  | lqgstart
  | lqgstop
  | pidstart
  | pidstop
deriving DecidableEq

/-- `cmd_lqgstart` / `cmd_lqgstop` / `cmd_pidstart` / `cmd_pidstop`: each sets
exactly one boolean flag and touches nothing else. -/
def applyCmd : Cmd → CState → CState
  | .lqgstart, s => { s with lqg := true }
  | .lqgstop, s => { s with lqg := false }
  | .pidstart, s => { s with pid := true }
  | .pidstop, s => { s with pid := false }

/-- Truncation of a rational toward zero: the cast a `numpy` integer-dtype
array element performs when a float is assigned into it (floor for
non-negative values, ceiling for negative ones). -/
def truncQ (q : ℚ) : ℤ := if 0 ≤ q then ⌊q⌋ else ⌈q⌉

/-- Outcome of the two chained `ljm.eReadName` attempts for one channel in
`job_doservo`: first attempt succeeded, first failed but the immediate retry
succeeded, or both failed (both exceptions are caught and logged). -/
inductive ReadResult where
  | ok (v : ℚ)
  | failOnce (v : ℚ)
  | failTwice
deriving DecidableEq

/-- The read outcomes of the three analog input channels for one cycle. -/
structure Reads where
  r0 : ReadResult
  r1 : ReadResult
  r2 : ReadResult
deriving DecidableEq

/-- New stored voltage of one channel: the read value if either attempt
succeeded, else the previous stored voltage (`self.voltages[ix]` unassigned). -/
def stepVoltage (r : ReadResult) (v : ℚ) : ℚ :=
  match r with
  | .ok w => w
  | .failOnce w => w
  | .failTwice => v

/-- The estimator update of `job_doservo` lines 300–303:
`x_est_new = np.dot(A_mat, x_est)`; `x_est_new += np.dot(B_mat, u)`;
`dummy = y - np.dot(C_mat, np.dot(A_mat, x_est) + np.dot(B_mat, u))`;
`x_est_new += np.dot(K_mat, dummy)`. -/
def lqgEstimate (P : LqgParams) (x : Vec3) (u y : ℚ) : Vec3 :=
  let x1 := mat33vec P.A_mat x
  let x2 := addV x1 (scaleV u P.B_mat)
  let dummy := y - dot3 P.C_mat (addV (mat33vec P.A_mat x) (scaleV u P.B_mat))
  addV x2 (scaleV dummy P.K_mat)

/-- Modelled from the spec (§4.3), for comparison with `lqgEstimate`:
`x_pred = A·x + B·u_prev`; `innovation = y − C·x_pred`;
`x_new = x_pred + K·innovation`. -/
def kalmanSpec (P : LqgParams) (x : Vec3) (u y : ℚ) : Vec3 :=
  let xpred := addV (mat33vec P.A_mat x) (scaleV u P.B_mat)
  let innovation := y - dot3 P.C_mat xpred
  addV xpred (scaleV innovation P.K_mat)

/-- The regulator of `job_doservo` lines 307–317: `u = -np.dot(L_mat, x_est)`;
`fraction = u[0,0]/HEATER_MAX`; if `fraction < 0` then `u[0,0] = 0`,
`fraction = 0`; elif `fraction > 1` then `u[0,0] = HEATER_MAX`, `fraction = 1`.
Returns the clamped `u[0,0]` and the clamped fraction. -/
def regulator (L x : Vec3) : ℚ × ℚ :=
  let raw := -(dot3 L x)
  let fraction := raw / HEATER_MAX
  if fraction < 0 then (0, 0)
  else if fraction > 1 then (HEATER_MAX, 1)
  else (raw, fraction)

/-- One execution of `job_doservo`, given the `lqg_math` parameters, the
voltage-to-temperature transfer, and the read outcomes of the three channels.
Returns the new object state and the list of heater commands written to the
labjack this cycle, as (heater index, drive fraction) in write order. -/
def job_doservo (P : LqgParams) (tempOf : ℚ → ℚ) (rd : Reads) (s : CState) :
    CState × List (ℕ × ℚ) :=
  let volts : Vec3 :=
    ⟨stepVoltage rd.r0 s.voltages.v0,
     stepVoltage rd.r1 s.voltages.v1,
     stepVoltage rd.r2 s.voltages.v2⟩
  let s1 := { s with voltages := volts, nreads := s.nreads + 1 }
  let tempnow := tempOf volts.v0
  if s.lqg then
    let y := tempnow - s.setpoint
    let xnew := lqgEstimate P s.x_est s.u y
    let s2 := { s1 with x_est := xnew }
    if s.use_lqg then
      let r := regulator P.L_mat xnew
      ({ s2 with ulqg := -(dot3 P.L_mat xnew), u := r.1 }, [(0, r.2)])
    else
      (s2, [])
  else if s.pid then
    let t0 := tempOf volts.v1
    let i0a : ℚ := (truncQ (s.pid_ints.1 + P.lqg_dt * t0) : ℤ)
    let h0a := 1/2 + pid_gain * (s.setpoint - t0) + pid_i * i0a
    let p0 : ℚ × ℚ := if h0a < 0 then (0, 0) else (h0a, i0a)
    let p0' : ℚ × ℚ := if p0.1 > 1 then (1, 0) else p0
    let t1 := tempOf volts.v2
    let i0d : ℚ := (truncQ (p0'.2 + P.lqg_dt * t1) : ℤ)
    let h1a := 1/2 + pid_gain * (s.setpoint - t1) + pid_i * s.pid_ints.2
    let p1 : ℚ × ℚ := if h1a < 0 then (0, 0) else (h1a, s.pid_ints.2)
    let p1' : ℚ × ℚ := if p1.1 > 1 then (1, 0) else p1
    ({ s1 with pid_ints := (i0d, p1'.2) },
     [(0, p1'.1), (1, p1'.1), (2, p1'.1), (3, p0'.1)])
  else
    (s1, [])

/-- The all-zero 3-vector. -/
def zeroV : Vec3 := ⟨0, 0, 0⟩

/-- The all-zero 3×3 matrix. -/
def zeroM : Mat33 := ⟨zeroV, zeroV, zeroV⟩

/-- Concrete parameter set: unit timestep, all matrices zero. -/
def P0 : LqgParams := ⟨1, zeroM, zeroV, zeroV, zeroV, zeroV⟩

/-- Concrete parameter set: unit timestep, zero plant, all-ones K and L. -/
def PK1 : LqgParams := ⟨1, zeroM, zeroV, zeroV, ⟨1, 1, 1⟩, ⟨1, 1, 1⟩⟩

/-- All three channels read the same value at the first attempt. -/
def rdOk (v : ℚ) : Reads := ⟨.ok v, .ok v, .ok v⟩

/-- All three channels fail both the read and the immediate retry. -/
def rdFail : Reads := ⟨.failTwice, .failTwice, .failTwice⟩

/-- C2: in every LQG-mode servo cycle, the new `x_est` is exactly one
predict-and-correct Kalman recursion `A·x + B·u + K·(y − C·(A·x + B·u))`
applied to the prior estimate `x_est`, the prior input `u` and the measured
deviation `y = temperature − setpoint`; the update is a pure function of
those values (no hardware access, no smoothing, no multi-step lookahead). -/
theorem c2_lqg_estimator_is_single_kalman_step
    (P : LqgParams) (tempOf : ℚ → ℚ) (rd : Reads) (s : CState)
    (hl : s.lqg = true) :
    (job_doservo P tempOf rd s).1.x_est =
      kalmanSpec P s.x_est s.u
        (tempOf (stepVoltage rd.r0 s.voltages.v0) - s.setpoint) := by
  have hek : ∀ x u y, lqgEstimate P x u y = kalmanSpec P x u y :=
    fun _ _ _ => rfl
  cases hu : s.use_lqg <;>
    simp [job_doservo, hl, hu, hek]

/-- C2 witness: concrete instantiation of the estimator-step theorem. -/
theorem c2_lqg_estimator_is_single_kalman_step_witness :
    ({ initState with lqg := true } : CState).lqg = true ∧
    (job_doservo P0 id (rdOk 25) { initState with lqg := true }).1.x_est =
      kalmanSpec P0 ({ initState with lqg := true } : CState).x_est
        ({ initState with lqg := true } : CState).u
        (id (stepVoltage (rdOk 25).r0
            ({ initState with lqg := true } : CState).voltages.v0) -
          ({ initState with lqg := true } : CState).setpoint) :=
  ⟨rfl, c2_lqg_estimator_is_single_kalman_step P0 id (rdOk 25) _ rfl⟩

/-- C3: for every estimator state, the regulator forms `raw = −L·x_est`, clamps
it to `[0, HEATER_MAX]` (to 0 if negative, to `HEATER_MAX` if above it), and the
driven fraction is the clamped control divided by `HEATER_MAX`, always in
`[0,1]`; in particular `raw = −1` gives fraction 0, `raw = 2·HEATER_MAX`
(reached at `x_est = ⟨-3409/500,0,0⟩`, `L = ⟨1,0,0⟩`) gives fraction 1, and
`raw = HEATER_MAX/2` gives fraction exactly `1/2`. -/
theorem c3_regulator_clamp_and_fraction :
    (∀ L x : Vec3,
      (regulator L x).1 = max 0 (min HEATER_MAX (-(dot3 L x))) ∧
      (regulator L x).2 = (regulator L x).1 / HEATER_MAX ∧
      0 ≤ (regulator L x).2 ∧ (regulator L x).2 ≤ 1) ∧
    (regulator ⟨1, 0, 0⟩ ⟨1, 0, 0⟩).2 = 0 ∧
    (regulator ⟨1, 0, 0⟩ ⟨-3409/500, 0, 0⟩).2 = 1 ∧
    (regulator ⟨1, 0, 0⟩ ⟨-3409/2000, 0, 0⟩).2 = 1/2 := by
  have hM : (0 : ℚ) < HEATER_MAX := by norm_num [HEATER_MAX]
  refine ⟨fun L x => ?_, ?_, ?_, ?_⟩
  · simp only [regulator]
    split_ifs with h1 h2
    · have hr : -(dot3 L x) < 0 := by
        have := (div_lt_iff hM).mp h1
        simpa using this
      have hmin : min HEATER_MAX (-(dot3 L x)) = -(dot3 L x) :=
        min_eq_right (le_of_lt (lt_trans hr hM))
      refine ⟨?_, by norm_num, le_refl _, by norm_num⟩
      rw [hmin, max_eq_left (le_of_lt hr)]
    · have hr : HEATER_MAX < -(dot3 L x) := (one_lt_div hM).mp h2
      refine ⟨?_, ?_, by norm_num, le_refl _⟩
      · rw [min_eq_left (le_of_lt hr), max_eq_right (le_of_lt hM)]
      · rw [div_self (ne_of_gt hM)]
    · have h0 : 0 ≤ -(dot3 L x) / HEATER_MAX := not_lt.mp h1
      have hle : -(dot3 L x) / HEATER_MAX ≤ 1 := not_lt.mp h2
      have hr0 : 0 ≤ -(dot3 L x) := by
        have := (le_div_iff hM).mp h0
        simpa using this
      have hrM : -(dot3 L x) ≤ HEATER_MAX := (div_le_one hM).mp hle
      exact ⟨by rw [min_eq_right hrM, max_eq_right hr0], rfl, h0, hle⟩
  · norm_num [regulator, dot3, HEATER_MAX]
  · norm_num [regulator, dot3, HEATER_MAX]
  · norm_num [regulator, dot3, HEATER_MAX]

/-- C9: in a servo cycle where neither the LQG nor the PID flag is set (Idle
mode), no heater command is emitted and `x_est`, the last input `u` and the PID
integrators are all left unchanged. -/
theorem c9_idle_no_command_no_mutation
    (P : LqgParams) (tempOf : ℚ → ℚ) (rd : Reads) (s : CState)
    (hl : s.lqg = false) (hp : s.pid = false) :
    (job_doservo P tempOf rd s).2 = [] ∧
    (job_doservo P tempOf rd s).1.x_est = s.x_est ∧
    (job_doservo P tempOf rd s).1.u = s.u ∧
    (job_doservo P tempOf rd s).1.pid_ints = s.pid_ints := by
  simp [job_doservo, hl, hp]

/-- C9 witness: the idle-mode theorem applied to the freshly initialised
state. -/
theorem c9_idle_no_command_no_mutation_witness :
    initState.lqg = false ∧ initState.pid = false ∧
    ((job_doservo P0 id (rdOk 25) initState).2 = [] ∧
     (job_doservo P0 id (rdOk 25) initState).1.x_est = initState.x_est ∧
     (job_doservo P0 id (rdOk 25) initState).1.u = initState.u ∧
     (job_doservo P0 id (rdOk 25) initState).1.pid_ints = initState.pid_ints) :=
  ⟨rfl, rfl, c9_idle_no_command_no_mutation P0 id (rdOk 25) initState rfl rfl⟩

/-- C1 counterexample: with the LQG mode active and every channel failing both
its read and its immediate retry, the cycle nevertheless emits a heater command
and mutates `x_est` (it carries on with the stale voltages), so the claim
"no new ControlCommand and no estimator mutation after a double read failure"
is false of the code. -/
theorem c1_counterexample_double_failure_still_controls :
    (job_doservo PK1 id rdFail { initState with lqg := true }).2 ≠ [] ∧
    (job_doservo PK1 id rdFail { initState with lqg := true }).1.x_est ≠
      ({ initState with lqg := true } : CState).x_est := by
  have h2 : (job_doservo PK1 id rdFail { initState with lqg := true }).2 =
      [(0, 0)] := by
    norm_num [job_doservo, initState, lqgEstimate, regulator, dot3, mat33vec,
      addV, scaleV, truncQ, pid_gain, pid_i, PID_GAIN_HZ, TEMP_DERIV,
      HEATER_MAX, stepVoltage, rdFail, PK1, zeroM, zeroV]
  have h1 : (job_doservo PK1 id rdFail { initState with lqg := true }).1.x_est =
      (⟨749/10, 749/10, 749/10⟩ : Vec3) := by
    norm_num [job_doservo, initState, lqgEstimate, regulator, dot3, mat33vec,
      addV, scaleV, truncQ, pid_gain, pid_i, PID_GAIN_HZ, TEMP_DERIV,
      HEATER_MAX, stepVoltage, rdFail, PK1, zeroM, zeroV]
  refine ⟨by rw [h2]; simp, by rw [h1]; simp [initState]⟩

/-- C1 amended: when every channel's read and immediate retry both fail, the
loop does not crash and the stored voltages keep their previous values, but the
cycle is NOT skipped: `nreads` still advances and, in LQG mode with `use_lqg`
set, `x_est` is still updated (one Kalman step driven by the stale voltage of
channel 0) and one heater command is still emitted. -/
theorem c1_amended_double_failure_continues_with_stale_data
    (P : LqgParams) (tempOf : ℚ → ℚ) (s : CState)
    (hl : s.lqg = true) (hu : s.use_lqg = true) :
    (job_doservo P tempOf rdFail s).1.voltages = s.voltages ∧
    (job_doservo P tempOf rdFail s).1.nreads = s.nreads + 1 ∧
    (job_doservo P tempOf rdFail s).1.x_est =
      kalmanSpec P s.x_est s.u (tempOf s.voltages.v0 - s.setpoint) ∧
    (job_doservo P tempOf rdFail s).2 =
      [(0, (regulator P.L_mat
        (kalmanSpec P s.x_est s.u (tempOf s.voltages.v0 - s.setpoint))).2)] := by
  have hek : ∀ x u y, lqgEstimate P x u y = kalmanSpec P x u y :=
    fun _ _ _ => rfl
  simp [job_doservo, hl, hu, rdFail, stepVoltage, hek]

/-- C1 witness: concrete instantiation of the amended double-failure
theorem. -/
theorem c1_amended_witness :
    ({ initState with lqg := true } : CState).lqg = true ∧
    ({ initState with lqg := true } : CState).use_lqg = true ∧
    ((job_doservo P0 id rdFail { initState with lqg := true }).1.voltages =
        ({ initState with lqg := true } : CState).voltages ∧
     (job_doservo P0 id rdFail { initState with lqg := true }).1.nreads =
        ({ initState with lqg := true } : CState).nreads + 1 ∧
     (job_doservo P0 id rdFail { initState with lqg := true }).1.x_est =
        kalmanSpec P0 ({ initState with lqg := true } : CState).x_est
          ({ initState with lqg := true } : CState).u
          (id ({ initState with lqg := true } : CState).voltages.v0 -
            ({ initState with lqg := true } : CState).setpoint) ∧
     (job_doservo P0 id rdFail { initState with lqg := true }).2 =
        [(0, (regulator P0.L_mat
          (kalmanSpec P0 ({ initState with lqg := true } : CState).x_est
            ({ initState with lqg := true } : CState).u
            (id ({ initState with lqg := true } : CState).voltages.v0 -
              ({ initState with lqg := true } : CState).setpoint))).2)]) :=
  ⟨rfl, rfl,
    c1_amended_double_failure_continues_with_stale_data P0 id _ rfl rfl⟩

/-- C8 counterexample: the mode flags are independent booleans, so the command
sequence `lqgstart; pidstart` leaves the LQG and PID flags simultaneously true,
refuting mutual exclusivity of the flags. -/
theorem c8_counterexample_both_flags_true :
    (applyCmd .pidstart (applyCmd .lqgstart initState)).lqg = true ∧
    (applyCmd .pidstart (applyCmd .lqgstart initState)).pid = true :=
  ⟨rfl, rfl⟩

/-- C8 amended: the `lqg` and `pid` flags can be simultaneously true, but the
cycle dispatch tests `lqg` first and `pid` only in an `elif`, so at most one
control law runs per cycle: when both flags are set, the PID integrators are
untouched, `x_est` takes the LQG estimator update, and every emitted command is
the single LQG command for heater 0. -/
theorem c8_amended_dispatch_selects_at_most_one_law
    (P : LqgParams) (tempOf : ℚ → ℚ) (rd : Reads) (s : CState)
    (hl : s.lqg = true) (hp : s.pid = true) :
    (job_doservo P tempOf rd s).1.pid_ints = s.pid_ints ∧
    (job_doservo P tempOf rd s).1.x_est =
      lqgEstimate P s.x_est s.u
        (tempOf (stepVoltage rd.r0 s.voltages.v0) - s.setpoint) ∧
    ∀ c ∈ (job_doservo P tempOf rd s).2, c.1 = 0 := by
  cases hu : s.use_lqg <;>
    simp [job_doservo, hl, hu]

/-- C8 witness: the amended dispatch theorem applied to a state with both
flags set. -/
theorem c8_amended_witness :
    ({ initState with lqg := true, pid := true } : CState).lqg = true ∧
    ({ initState with lqg := true, pid := true } : CState).pid = true ∧
    ((job_doservo P0 id (rdOk 25)
        { initState with lqg := true, pid := true }).1.pid_ints =
      ({ initState with lqg := true, pid := true } : CState).pid_ints ∧
     (job_doservo P0 id (rdOk 25)
        { initState with lqg := true, pid := true }).1.x_est =
      lqgEstimate P0 ({ initState with lqg := true, pid := true } : CState).x_est
        ({ initState with lqg := true, pid := true } : CState).u
        (id (stepVoltage (rdOk 25).r0
            ({ initState with lqg := true, pid := true } : CState).voltages.v0) -
          ({ initState with lqg := true, pid := true } : CState).setpoint) ∧
     ∀ c ∈ (job_doservo P0 id (rdOk 25)
        { initState with lqg := true, pid := true }).2, c.1 = 0) :=
  ⟨rfl, rfl,
    c8_amended_dispatch_selects_at_most_one_law P0 id (rdOk 25) _ rfl rfl⟩

/-- C4: evaluation at the failing input. In PID mode with `lqg_dt = 1`,
setpoint 100 and both controlled temperatures at 25 (persistently large
positive error), every drive saturates at 1, yet after the cycle channel 0's
integrator holds 25, not 0: the anti-windup reset of `pid_ints[0]` is undone
by the subsequent `self.pid_ints[0] += lqg_dt*t1` of the channel-1 block. -/
theorem c4_saturated_drive_integrator_not_held_at_zero :
    (job_doservo P0 id (rdOk 25)
        { initState with pid := true, setpoint := 100 }).2 =
      [(0, 1), (1, 1), (2, 1), (3, 1)] ∧
    (job_doservo P0 id (rdOk 25)
        { initState with pid := true, setpoint := 100 }).1.pid_ints = (25, 0) := by
  constructor <;>
    norm_num [job_doservo, initState, lqgEstimate, regulator, dot3, mat33vec,
      addV, scaleV, truncQ, pid_gain, pid_i, PID_GAIN_HZ, TEMP_DERIV,
      HEATER_MAX, stepVoltage, rdOk, P0, zeroM, zeroV]

/-- C5: evaluation at the failing input. Starting from integrators `(0, 0)` in
PID mode with both temperatures 25 and setpoint 25 (no saturation), one cycle
leaves `pid_ints = (50, 0)`: computing channel 1's drive accumulated
`lqg_dt*t1` into channel 0's integrator (line `self.pid_ints[0] += lqg_dt*t1`),
and channel 1's own integrator was never accumulated. -/
theorem c5_channel1_update_mutates_channel0_integrator :
    (job_doservo P0 id (rdOk 25) { initState with pid := true }).1.pid_ints =
      (50, 0) := by
  norm_num [job_doservo, initState, lqgEstimate, regulator, dot3, mat33vec,
    addV, scaleV, truncQ, pid_gain, pid_i, PID_GAIN_HZ, TEMP_DERIV,
    HEATER_MAX, stepVoltage, rdOk, P0, zeroM, zeroV]

/-- C7: evaluation at the failing input. In PID mode with both temperatures
25.5 and setpoint 25.5, the claimed per-channel law would accumulate
`integral += Δt·t` exactly (giving 25.5) and drive channel 1 at
`0.5 + pid_i·25.5 = 113/175`; the code instead truncates the accumulation to
the integer 25 (channel 0 drive `9/14` instead of `113/175`) and never
accumulates channel 1's integrator (channel 1 drive exactly `1/2`), leaving
`pid_ints = (50, 0)`. -/
theorem c7_pid_update_formula_not_followed :
    (job_doservo P0 id (rdOk (51/2))
        { initState with pid := true, setpoint := 51/2 }).2 =
      [(0, 1/2), (1, 1/2), (2, 1/2), (3, 9/14)] ∧
    (job_doservo P0 id (rdOk (51/2))
        { initState with pid := true, setpoint := 51/2 }).1.pid_ints =
      (50, 0) := by
  constructor <;>
    norm_num [job_doservo, initState, lqgEstimate, regulator, dot3, mat33vec,
      addV, scaleV, truncQ, pid_gain, pid_i, PID_GAIN_HZ, TEMP_DERIV,
      HEATER_MAX, stepVoltage, rdOk, P0, zeroM, zeroV]

/-- C10: `pid_ints` is created as an integer-dtype array and every in-place
accumulation stores a toward-zero-truncated value, so both elements are
integer-valued after initialization and after every servo cycle (any cycle,
any mode, any reads, any parameters). -/
theorem c10_pid_ints_stay_integer_valued :
    ((∃ a : ℤ, initState.pid_ints.1 = (a : ℚ)) ∧
     (∃ b : ℤ, initState.pid_ints.2 = (b : ℚ))) ∧
    ∀ (P : LqgParams) (tempOf : ℚ → ℚ) (rd : Reads) (s : CState),
      (∃ a : ℤ, s.pid_ints.1 = (a : ℚ)) →
      (∃ b : ℤ, s.pid_ints.2 = (b : ℚ)) →
      ((∃ a : ℤ, (job_doservo P tempOf rd s).1.pid_ints.1 = (a : ℚ)) ∧
       (∃ b : ℤ, (job_doservo P tempOf rd s).1.pid_ints.2 = (b : ℚ))) := by
  refine ⟨⟨⟨0, by norm_num [initState]⟩, ⟨0, by norm_num [initState]⟩⟩, ?_⟩
  intro P tempOf rd s ha hb
  cases hl : s.lqg with
  | true =>
    cases hu : s.use_lqg <;>
      simpa [job_doservo, hl, hu] using ⟨ha, hb⟩
  | false =>
    cases hp : s.pid with
    | false => simpa [job_doservo, hl, hp] using ⟨ha, hb⟩
    | true =>
      obtain ⟨b, hb'⟩ := hb
      simp [job_doservo, hl, hp]
      split_ifs <;> first
        | exact ⟨b, hb'⟩
        | exact ⟨0, by norm_num⟩

/-- C10 witness: the integrality preservation applied to one concrete PID
cycle. -/
theorem c10_pid_ints_stay_integer_valued_witness :
    (∃ a : ℤ, ({ initState with pid := true } : CState).pid_ints.1 = (a : ℚ)) ∧
    (∃ b : ℤ, ({ initState with pid := true } : CState).pid_ints.2 = (b : ℚ)) ∧
    ((∃ a : ℤ, (job_doservo P0 id (rdOk 25)
        { initState with pid := true }).1.pid_ints.1 = (a : ℚ)) ∧
     (∃ b : ℤ, (job_doservo P0 id (rdOk 25)
        { initState with pid := true }).1.pid_ints.2 = (b : ℚ))) :=
  ⟨⟨0, by norm_num [initState]⟩, ⟨0, by norm_num [initState]⟩,
    c10_pid_ints_stay_integer_valued.2 P0 id (rdOk 25) _
      ⟨0, by norm_num [initState]⟩ ⟨0, by norm_num [initState]⟩⟩

/-- A row-major rational matrix of dynamic shape, as a `numpy` 2-D array. -/
def dotL (a b : List ℚ) : ℚ := ((a.zip b).map (fun p => p.1 * p.2)).sum

/-- Column `j` of a dynamic matrix. -/
def getCol (B : List (List ℚ)) (j : ℕ) : List ℚ := B.map (fun r => r.getD j 0)

/-- The column count of a dynamic matrix (length of its first row). -/
def numCols (A : List (List ℚ)) : ℕ := (A.headD []).length

/-- `A` is a well-formed `r × c` matrix: `r` rows, every row of length `c`. -/
def isMat (r c : ℕ) (A : List (List ℚ)) : Prop :=
  A.length = r ∧ ∀ row ∈ A, row.length = c

instance (r c : ℕ) (A : List (List ℚ)) : Decidable (isMat r c A) := by
  unfold isMat; infer_instance

/-- `np.dot` on 2-D arrays: defined only when the column count of `A` (the
length of each of its rows) equals the row count of `B`; otherwise `numpy`
raises `ValueError: shapes not aligned`, modelled as `none`. -/
def npDot (A B : List (List ℚ)) : Option (List (List ℚ)) :=
  if A.all (fun row => row.length == B.length) then
    some (A.map (fun row =>
      (List.range (numCols B)).map (fun j => dotL row (getCol B j))))
  else none

/-- Elementwise `numpy` addition of two arrays of identical shape (the only
use the estimator update makes of it); shape mismatch is `none`. -/
def npAdd (A B : List (List ℚ)) : Option (List (List ℚ)) :=
  if A.map List.length == B.map List.length then
    some ((A.zip B).map (fun p => (p.1.zip p.2).map (fun q => q.1 + q.2)))
  else none

/-- Elementwise `numpy` subtraction of two arrays of identical shape; shape
mismatch is `none`. -/
def npSub (A B : List (List ℚ)) : Option (List (List ℚ)) :=
  if A.map List.length == B.map List.length then
    some ((A.zip B).map (fun p => (p.1.zip p.2).map (fun q => q.1 - q.2)))
  else none

/-- The estimator update of `job_doservo` lines 300–303 over dynamically
shaped `numpy` arrays, propagating `numpy`'s shape failures: `A·x`, `B·u`,
their sum, `y − C·(A·x + B·u)` (the source recomputes `A·x + B·u` here; the
value is identical), and `+ K·(...)`. -/
def lqg_update_dyn (A B C K x u y : List (List ℚ)) : Option (List (List ℚ)) := do
  let ax ← npDot A x
  let bu ← npDot B u
  let xpred ← npAdd ax bu
  let cx ← npDot C xpred
  let innov ← npSub y cx
  let kd ← npDot K innov
  npAdd xpred kd

/-- C6: the estimator update applied to a state vector whose dimension differs
from the plant order n = 3 fails (returns `none`, `numpy`'s shape error) — the
dimension is effectively checked on every call, in the very first product
`np.dot(A_mat, x_est)` — and, at concrete well-formed inputs of matching
dimension, the update succeeds. -/
theorem c6_estimator_dimension_checked_every_call :
    (∀ (A B C K x u y : List (List ℚ)), isMat 3 3 A → x.length ≠ 3 →
      lqg_update_dyn A B C K x u y = none) ∧
    lqg_update_dyn [[1,0,0],[0,1,0],[0,0,1]] [[0],[0],[0]] [[0,0,0]]
      [[0],[0],[0]] [[1],[2],[3]] [[0]] [[5]] = some [[1],[2],[3]] := by
  constructor
  · intro A B C K x u y hA hx
    obtain ⟨hAlen, hArows⟩ := hA
    cases A with
    | nil => simp at hAlen
    | cons a A' =>
      have ha : a.length = 3 := hArows a (List.mem_cons_self a A')
      have hcond : (a.length == x.length) = false := by
        rw [ha]
        exact beq_false_of_ne fun h => hx h.symm
      simp [lqg_update_dyn, npDot, hcond]
  · norm_num [lqg_update_dyn, npDot, npAdd, npSub, dotL, getCol, numCols,
      List.range_succ]

/-- C6 witness: a concrete 3×3 `A` with a length-1 state vector fails. -/
theorem c6_estimator_dimension_checked_witness :
    isMat 3 3 ([[1,0,0],[0,1,0],[0,0,1]] : List (List ℚ)) ∧
    ([[(7:ℚ)]] : List (List ℚ)).length ≠ 3 ∧
    lqg_update_dyn [[1,0,0],[0,1,0],[0,0,1]] [[0],[0],[0]] [[0,0,0]]
      [[0],[0],[0]] [[(7:ℚ)]] [[0]] [[5]] = none :=
  ⟨by decide, by decide,
    c6_estimator_dimension_checked_every_call.1
      [[1,0,0],[0,1,0],[0,0,1]] [[0],[0],[0]] [[0,0,0]] [[0],[0],[0]]
      [[(7:ℚ)]] [[0]] [[5]] (by decide) (by decide)⟩
